import Mathlib

/-!
Verification development for the purple-vk-plugin sources: the message receiver
(vk-message-recv.cpp), the outbound message sender (vk-message-send.cpp), the
imgstore upload helpers, and the buddy synchronisation callbacks (vk-buddy.cpp).
JSON values are modelled after picojson; machine integers of the source
(uint64/int64, doubles holding integral ids and timestamps) are modelled as Int.
-/

namespace VkPlugin

/-- Model of a picojson value. Numbers are modelled as Int: every numeric field the
plugin reads (ids, timestamps, error codes, flags) holds an integral value that the
source immediately casts to an integer type. -/
inductive JValue where
  | jnull
  | jbool (b : Bool)
  | jnum (n : Int)
  | jstr (s : String)
  | jarr (items : List JValue)
  | jobj (fields : List (String × JValue))
deriving Inhabited

namespace JValue

/-- Lookup of a field by name in an object field list (first match). -/
def lookupField : List (String × JValue) → String → Option JValue
  | [], _ => none
  | (k, v) :: rest, name => if k = name then some v else lookupField rest name

/-- Model of picojson value::get(key): the field value, or null when the field is
absent or the value is not an object. -/
def get (v : JValue) (name : String) : JValue :=
  match v with
  | jobj fields => (lookupField fields name).getD jnull
  | _ => jnull

/-- Model of picojson is of double type. -/
def isNum : JValue → Bool
  | jnum _ => true
  | _ => false

/-- Model of picojson is of string type. -/
def isStr : JValue → Bool
  | jstr _ => true
  | _ => false

/-- Model of picojson is of array type. -/
def isArr : JValue → Bool
  | jarr _ => true
  | _ => false

/-- Model of picojson is of object type. -/
def isObj : JValue → Bool
  | jobj _ => true
  | _ => false

end JValue

open JValue

/-- Modelled from the spec: the field_is_present checking helper of miscutils.h (the
header is not under src/). The JSON response shape checks are field-presence checks:
the value is an object containing the named field with the expected JSON type. This
instance checks for a numeric field. -/
def fieldIsNum (v : JValue) (name : String) : Bool := (v.get name).isNum

/-- Modelled from the spec: field_is_present of miscutils.h for string fields. -/
def fieldIsStr (v : JValue) (name : String) : Bool := (v.get name).isStr

/-- Modelled from the spec: field_is_present of miscutils.h for array fields. -/
def fieldIsArr (v : JValue) (name : String) : Bool := (v.get name).isArr

/-- Modelled from the spec: field_is_present of miscutils.h for object fields. -/
def fieldIsObj (v : JValue) (name : String) : Bool := (v.get name).isObj

/-- Model of picojson get of a double after the presence check, cast to an integer
type by the source. Non-numeric values yield 0 (picojson asserts there; every use in
the source is either guarded by field_is_present, or noted where it is not). -/
def getNum (v : JValue) (name : String) : Int :=
  match v.get name with
  | .jnum n => n
  | _ => 0

/-- Model of picojson get of a string after the presence check. -/
def getStr (v : JValue) (name : String) : String :=
  match v.get name with
  | .jstr s => s
  | _ => ""

/-- Model of picojson get of an array after the presence check. -/
def getArr (v : JValue) (name : String) : List JValue :=
  match v.get name with
  | .jarr xs => xs
  | _ => []

/-- Items of a JSON array value. -/
def arrItems : JValue → List JValue
  | .jarr xs => xs
  | _ => []

/-! ## MessageReceiver (vk-message-recv.cpp) -/

/-- MessageReceiver::ReceivedMessage: one received message accumulated in m_messages. -/
structure ReceivedMessage where
  uid : Int
  mid : Int
  text : String
  timestamp : Int
  thumbnail_urls : List String
deriving DecidableEq, Repr, Inhabited

/-- Placeholder token appended in process_attachments for thumbnail index i:
the str_format of the thumbnail-placeholder pattern. -/
def placeholderTag (i : Nat) : String := "<thumbnail-placeholder-" ++ toString i ++ ">"

/-- Photo URL selection in the photo branch of MessageReceiver::process_attachments:
with an access_key field the largest available size (photo_2560, photo_1280, photo_807,
else the photo_604 thumbnail), without one the direct photo page URL. -/
def photoUrl (fields : JValue) : String :=
  if fieldIsStr fields "access_key" then
    if fieldIsStr fields "photo_2560" then getStr fields "photo_2560"
    else if fieldIsStr fields "photo_1280" then getStr fields "photo_1280"
    else if fieldIsStr fields "photo_807" then getStr fields "photo_807"
    else getStr fields "photo_604"
  else
    "http://vk.com/photo" ++ toString (getNum fields "owner_id") ++ "_" ++
      toString (getNum fields "id")

/-- MessageReceiver::process_attachments: renders each attachment into the message
text. A missing type field or a missing type-named payload object returns early and
keeps the message accumulated so far; a malformed typed attachment is skipped with
continue (the br separator appended just before the branch remains, as in the
source). Unknown types append the literal unknown-type marker of the source. -/
def processAttachments : List JValue → ReceivedMessage → ReceivedMessage
  | [], m => m
  | v :: rest, m =>
    if !fieldIsStr v "type" then m
    else
      let type := getStr v "type"
      if !fieldIsObj v type then m
      else
        let fields := v.get type
        let m := if m.text = "" then m else { m with text := m.text ++ "<br>" }
        if type = "photo" then
          if !(fieldIsNum fields "id" && fieldIsNum fields "owner_id" &&
               fieldIsStr fields "text" && fieldIsStr fields "photo_604") then
            processAttachments rest m
          else
            let photoText := getStr fields "text"
            let thumbnail := getStr fields "photo_604"
            let url := photoUrl fields
            let link :=
              if photoText = "" then
                "<a href=\x27" ++ url ++ "\x27>" ++ url ++ "</a>"
              else
                "<a href=\x27" ++ url ++ "\x27>" ++ photoText ++ "</a>"
            processAttachments rest
              { m with
                text := m.text ++ link ++ "<br>" ++ placeholderTag m.thumbnail_urls.length,
                thumbnail_urls := m.thumbnail_urls ++ [thumbnail] }
        else if type = "video" then
          if !(fieldIsNum fields "id" && fieldIsNum fields "owner_id" &&
               fieldIsStr fields "title" && fieldIsStr fields "photo_320") then
            processAttachments rest m
          else
            let title := getStr fields "title"
            let thumbnail := getStr fields "photo_320"
            let link := "<a href=\x27http://vk.com/video" ++ toString (getNum fields "owner_id") ++
              "_" ++ toString (getNum fields "id") ++ "\x27>" ++ title ++ "</a>"
            processAttachments rest
              { m with
                text := m.text ++ link ++ "<br>" ++ placeholderTag m.thumbnail_urls.length,
                thumbnail_urls := m.thumbnail_urls ++ [thumbnail] }
        else if type = "audio" then
          if !(fieldIsStr fields "url" && fieldIsStr fields "artist" &&
               fieldIsStr fields "title") then
            processAttachments rest m
          else
            processAttachments rest
              { m with
                text := m.text ++ "<a href=\x27" ++ getStr fields "url" ++ "\x27>" ++
                  getStr fields "artist" ++ " - " ++ getStr fields "title" ++ "</a>" }
        else if type = "doc" then
          if !(fieldIsStr fields "url" && fieldIsStr fields "title") then
            processAttachments rest m
          else
            processAttachments rest
              { m with
                text := m.text ++ "<a href=\x27" ++ getStr fields "url" ++ "\x27>" ++
                  getStr fields "title" ++ "</a>" }
        else
          processAttachments rest
            { m with text := m.text ++ "\nUnknown attachement type " ++ type }

/-- Model of the host function purple_markup_escape_text. It is a libpurple function
external to this repository; no claim depends on the escaping itself, so the escaped
text is modelled as the text. -/
def purpleMarkupEscapeText (s : String) : String := s

/-- One iteration of the item loop in MessageReceiver::process_result: the message
pushed for a well-formed item (user_id, date, body and id fields present with the
right types, attachments processed when present), or none for a skipped item. -/
def parseItem (v : JValue) : Option ReceivedMessage :=
  if !(fieldIsNum v "user_id" && fieldIsNum v "date" &&
       fieldIsStr v "body" && fieldIsNum v "id") then
    none
  else
    let base : ReceivedMessage :=
      { uid := getNum v "user_id"
        mid := getNum v "id"
        text := purpleMarkupEscapeText (getStr v "body")
        timestamp := getNum v "date"
        thumbnail_urls := [] }
    if fieldIsArr v "attachments" then
      some (processAttachments (getArr v "attachments") base)
    else
      some base

/-- MessageReceiver::process_result: on a malformed response (count not a numeric
field or items not an array field) nothing is accumulated and 0 is returned;
otherwise each item is parsed in order, malformed items are skipped, and the return
value is the size of the items array. The pair is (messages pushed, return value). -/
def processResult (result : JValue) : List ReceivedMessage × Nat :=
  if !(fieldIsNum result "count" && fieldIsArr result "items") then
    ([], 0)
  else
    let items := getArr result "items"
    (items.foldl (fun acc v =>
        match parseItem v with
        | some m => acc ++ [m]
        | none => acc) [],
     items.length)

/-- Continuation decision of the run_unread success callback: item_count is the
process_result return value; zero stops pagination (download_thumbnail is started),
otherwise the next messages.get call is issued at offset + item_count. -/
def nextOffset (result : JValue) (offset : Nat) : Option Nat :=
  let item_count := (processResult result).2
  if item_count = 0 then none else some (offset + item_count)

/-- Messages accumulated by MessageReceiver::run_unread across successive page
responses: pages are consumed in order until process_result returns 0; a transport
error (modelled as the response list running out) goes to the error callback, which
also proceeds to finish with the messages accumulated so far. -/
def runUnreadAccum : List JValue → List ReceivedMessage → List ReceivedMessage
  | [], acc => acc
  | page :: rest, acc =>
    let r := processResult page
    if r.2 = 0 then acc ++ r.1 else runUnreadAccum rest (acc ++ r.1)

/-- MessageReceiver::finish sorting step: std::sort with the strict timestamp
comparator orders m_messages nondecreasingly by timestamp before delivery (std::sort
is not stable and stability is not relied upon; the model sorts on the non-strict
order). The returned list is the delivery order passed to serv_got_im. -/
def finish (msgs : List ReceivedMessage) : List ReceivedMessage :=
  msgs.mergeSort (fun a b => decide (a.timestamp ≤ b.timestamp))

/-- Full delivery of an unread-mode run: the accumulated pages, sorted by finish. -/
def deliveredMessages (pages : List JValue) : List ReceivedMessage :=
  finish (runUnreadAccum pages [])

/-- str_concat_int of vk-message-recv.cpp: integers joined by the separator. -/
def strConcatInt (sep : String) (xs : List Int) : String :=
  xs.foldl (fun s x => (if s = "" then s else s ++ sep) ++ toString x) ""

/-- mark_message_as_read of vk-message-recv.cpp: the messages.markAsRead API call
issued (method name and message_ids parameter), or none when the id list is empty
and the function returns without calling vk_call_api. -/
def markMessageAsRead (message_ids : List Int) : Option (String × String) :=
  if message_ids = [] then none
  else some ("messages.markAsRead", strConcatInt "," message_ids)

/-- Mark-read call issued at the end of MessageReceiver::finish: the ids of the
delivered messages, in delivery order, passed to mark_message_as_read. -/
def finishMarkCall (msgs : List ReceivedMessage) : Option (String × String) :=
  markMessageAsRead ((finish msgs).map (fun m => m.mid))

/-! ## Thumbnail resolution (MessageReceiver::download_thumbnail) -/

/-- Modelled from the spec: str_replace of miscutils.h (not under src/), which
substitutes the placeholder token with a resolved image reference in the message
text: the first occurrence of the pattern is replaced (placeholder tokens are
index-based and occur at most once per message, so one replacement suffices). -/
def strReplaceChars : List Char → List Char → List Char → List Char
  | [], _, _ => []
  | c :: rest, pat, rep =>
    if pat.isPrefixOf (c :: rest) then rep ++ (c :: rest).drop pat.length
    else c :: strReplaceChars rest pat rep

/-- String version of strReplaceChars. -/
def strReplace (s pat rep : String) : String :=
  String.mk (strReplaceChars s.data pat.data rep.data)

/-- Image reference produced in download_thumbnail after a successful fetch:
str_format of the img tag with the imgstore id. -/
def imgTag (imgId : Int) : String := "<img id=\"" ++ toString imgId ++ "\">"

/-- Text transformations of MessageReceiver::download_thumbnail over one message:
outcome entry i describes the HTTP fetch of thumbnail i (some imgstore id on
success, none on failure). A successful fetch substitutes the placeholder token of
index i by the img tag; a failed fetch logs and moves to the next thumbnail without
touching the text. -/
def downloadThumbnailsFrom (text : String) (i : Nat) : List (Option Int) → String
  | [] => text
  | none :: rest => downloadThumbnailsFrom text (i + 1) rest
  | some imgId :: rest =>
    downloadThumbnailsFrom (strReplace text (placeholderTag i) (imgTag imgId)) (i + 1) rest

/-- Final text of one message after its thumbnail downloads. -/
def downloadThumbnails (text : String) (outcomes : List (Option Int)) : String :=
  downloadThumbnailsFrom text 0 outcomes

/-- Substring test used to state the placeholder claims. -/
def charsContain : List Char → List Char → Bool
  | [], pat => pat.isEmpty
  | c :: rest, pat => pat.isPrefixOf (c :: rest) || charsContain rest pat

/-- String version of charsContain. -/
def strContains (s pat : String) : Bool := charsContain s.data pat.data

/-! ## The older MessageReceiver in vk-buddy.cpp (MessageReceiver::receive) -/

/-- One item of the older MessageReceiver::receive loop in vk-buddy.cpp: the message
pushed for an item carrying user_id, date, body and id fields with the right types
(the body is taken raw and attachments are not processed there), none otherwise. -/
def oldParseItem (v : JValue) : Option ReceivedMessage :=
  if !(fieldIsNum v "user_id" && fieldIsNum v "date" &&
       fieldIsStr v "body" && fieldIsNum v "id") then
    none
  else
    some
      { uid := getNum v "user_id"
        mid := getNum v "id"
        text := getStr v "body"
        timestamp := getNum v "date"
        thumbnail_urls := [] }

/-- Item loop of the older MessageReceiver::receive in vk-buddy.cpp: items are
pushed in order, but a malformed item calls finish and returns, aborting the rest of
the page. The result is the accumulated message list and whether the loop aborted. -/
def receiveItems : List JValue → List ReceivedMessage → List ReceivedMessage × Bool
  | [], acc => (acc, false)
  | v :: rest, acc =>
    match oldParseItem v with
    | none => (acc, true)
    | some m => receiveItems rest (acc ++ [m])

/-! ## Outbound send (vk-message-send.cpp) -/

/-- Modelled from the spec: the CAPTCHA-required error code constant VK_CAPTCHA_NEEDED
of vk-common.h (not under src/). The concrete value is the VK API captcha error code;
only equality with it matters to the send logic. -/
def VK_CAPTCHA_NEEDED : Int := 14

/-- SendMessage of vk-message-send.cpp: the payload kept across CAPTCHA retries.
Exactly one of user_id and chat_id is nonzero; the callbacks are not modelled. -/
structure SendMessage where
  user_id : Int
  chat_id : Int
  text : String
  attachments : String
deriving DecidableEq, Repr, Inhabited

/-- Parameter list built by send_message_internal for one messages.send call.
maxUrlencoded stands for max_urlencoded_prefix of miscutils.h (not under src/, the
URL-length chunking bound); the substr byte count is modelled as a character count.
Empty captcha_sid and captcha_key are the defaulted arguments of a first attempt and
are then not part of the call. -/
def buildSendParams (maxUrlencoded : String → Nat) (m : SendMessage)
    (captcha_sid captcha_key : String) : List (String × String) :=
  let params0 := [("attachment", m.attachments), ("type", "1")]
  let text_len := maxUrlencoded m.text
  let params1 := params0 ++
    [("message", if text_len = m.text.length then m.text else m.text.take text_len)]
  let params2 := params1 ++
    (if m.user_id ≠ 0 then [("user_id", toString m.user_id)]
     else [("chat_id", toString m.chat_id)])
  let params3 := params2 ++ (if captcha_sid ≠ "" then [("captcha_sid", captcha_sid)] else [])
  params3 ++ (if captcha_key ≠ "" then [("captcha_key", captcha_key)] else [])

/-- Action taken by process_im_error on a failed messages.send call. -/
inductive ImErrorAction where
  | showError
  | requestCaptcha (captcha_sid captcha_img : String)
deriving DecidableEq, Repr

/-- process_im_error of vk-message-send.cpp: every error is terminal (show_error)
except a CAPTCHA-required error carrying captcha_sid and captcha_img string fields,
which surfaces one CAPTCHA challenge; its solved key is resubmitted through
send_message_internal with the same SendMessage plus the captcha parameters. -/
def processImError (error : JValue) : ImErrorAction :=
  if !error.isObj || !fieldIsNum error "error_code" then .showError
  else if getNum error "error_code" ≠ VK_CAPTCHA_NEEDED then .showError
  else if !(fieldIsStr error "captcha_sid" && fieldIsStr error "captcha_img") then .showError
  else .requestCaptcha (getStr error "captcha_sid") (getStr error "captcha_img")

/-! ## Imgstore upload (vk-message-send.cpp) -/

/-- Caseless character comparison of the G_REGEX_CASELESS img regex. -/
def charLowerEq (a b : Char) : Bool := a.toLower = b.toLower

/-- Caseless match of a literal pattern at the start; the remaining characters on
success. -/
def stripCaseless : List Char → List Char → Option (List Char)
  | [], cs => some cs
  | _, [] => none
  | p :: ps, c :: cs => if charLowerEq p c then stripCaseless ps cs else none

/-- Leading decimal digits and the remainder. -/
def readDigits : List Char → List Char × List Char
  | [] => ([], [])
  | c :: cs =>
    if c.isDigit then
      let r := readDigits cs
      (c :: r.1, r.2)
    else ([], c :: cs)

/-- Value of a digit string (the atoi call on the fetched id group). -/
def digitsToNat (ds : List Char) : Nat := ds.foldl (fun n c => 10 * n + (c.toNat - 48)) 0

/-- One match of the img-tag regex of remove_img_tags (caseless, the id group is one
or more digits) at the start of the input: the id value and the remainder. -/
def matchImgTag (cs : List Char) : Option (Nat × List Char) :=
  match stripCaseless "<img id=\"".data cs with
  | none => none
  | some rest =>
    match readDigits rest with
    | ([], _) => none
    | (ds, rest2) =>
      match rest2 with
      | '"' :: '>' :: rest3 => some (digitsToNat ds, rest3)
      | _ => none

/-- Scanning loop of remove_img_tags: every img-tag match is deleted from the text
and its id collected, left to right. Fuel is the character count; every step consumes
at least one character, so the fuel never runs out for the initial call. -/
def removeImgTagsGo : Nat → List Char → List Char × List Nat
  | 0, cs => (cs, [])
  | _ + 1, [] => ([], [])
  | fuel + 1, c :: cs =>
    match matchImgTag (c :: cs) with
    | some (id, rest) =>
      let r := removeImgTagsGo fuel rest
      (r.1, id :: r.2)
    | none =>
      let r := removeImgTagsGo fuel cs
      (c :: r.1, r.2)

/-- remove_img_tags of vk-message-send.cpp: the cleaned message without img tags and
the list of img ids in order of appearance. -/
def removeImgTags (s : String) : String × List Nat :=
  let r := removeImgTagsGo s.data.length s.data
  (String.mk r.1, r.2)

/-- Attachment string built for one saved photo in upload_imgstore_images_impl. -/
def photoAttachmentStr (ownerId photoId : Int) : String :=
  "photo" ++ toString ownerId ++ "_" ++ toString photoId

/-- Recursion of upload_imgstore_images_impl. save gives the photos.saveMessagesPhoto
outcome of uploading one imgstore id: owner_id and id of the saved photo, or none for
a failed upload or malformed result (the error_cb path). Uploading starts from the
end: at offset the image img_ids[size - offset - 1] is uploaded and its attachment
appended (comma separated); offset = size - 1 completes with uploaded_cb. Fuel is the
id count; the source indexes unchecked and callers keep offset below the size, so the
fuel-exhausted and out-of-range answers are never reached from uploadImgstoreImages. -/
def uploadImgstoreImagesGo (save : Nat → Option (Int × Int)) (imgIds : List Nat) :
    Nat → String → Nat → Option String
  | 0, _, _ => none
  | fuel + 1, atts, offset =>
    match save (imgIds.getD (imgIds.length - offset - 1) 0) with
    | none => none
    | some (ownerId, photoId) =>
      let atts2 := (if atts = "" then atts else atts ++ ",") ++
        photoAttachmentStr ownerId photoId
      if offset = imgIds.length - 1 then some atts2
      else uploadImgstoreImagesGo save imgIds fuel atts2 (offset + 1)

/-- upload_imgstore_images of vk-message-send.cpp: empty id list completes at once
with no attachments, otherwise the impl recursion starts at offset 0. -/
def uploadImgstoreImages (save : Nat → Option (Int × Int)) (imgIds : List Nat) :
    Option String :=
  if imgIds = [] then some ""
  else uploadImgstoreImagesGo save imgIds imgIds.length "" 0

/-- Comma-joined attachment list, used to state the upload-order results. -/
def joinComma (xs : List String) : String :=
  xs.foldl (fun a x => (if a = "" then a else a ++ ",") ++ x) ""

/-! ## Buddy synchronisation (vk-buddy.cpp) -/

/-- on_update_user_info of vk-buddy.cpp: some uid on the normal return, some 0 for
the sentinel, and none where the source has no defined return. The sentinel 0 comes
back when the item is incomplete (id, first_name or last_name missing) or the user
cannot be messaged (a deactivated string field, checked first - the disjunction
short-circuits - or can_write_private_message equal to a number other than 1). Two
reads are not guarded by field_is_present in the source and assert (debug) or are
undefined (release) in picojson when mistyped, so they are modelled as none: the
can_write_private_message read when that field is not numeric and not preempted by
deactivated, and the final last_seen.time read when last_seen is not an object with
a numeric time field. Every other field read feeding the VkUserInfo upsert is
presence-guarded and mutates state no claim refers to, so it is not modelled. -/
def onUpdateUserInfo (fields : JValue) : Option Int :=
  if !(fieldIsNum fields "id" && fieldIsStr fields "first_name" &&
       fieldIsStr fields "last_name") then
    some 0
  else if fieldIsStr fields "deactivated" then
    some 0
  else if !fieldIsNum fields "can_write_private_message" then
    none
  else if getNum fields "can_write_private_message" ≠ 1 then
    some 0
  else if !fieldIsNum (fields.get "last_seen") "time" then
    none
  else
    some (getNum fields "id")

/-- Item list walked by on_update_user_infos: for friends.get the result must be an
object and its items field an array, for users.get the result itself must be the
array; otherwise the function returns the empty set early. -/
def userInfoItems (result : JValue) (friends_get : Bool) : List JValue :=
  if friends_get && !result.isObj then []
  else
    let items := if friends_get then result.get "items" else result
    if items.isArr then arrItems items else []

/-- Loop body of on_update_user_infos: a non-object item is logged and skipped, an
object item is passed to on_update_user_info and a nonzero uid inserted into the
active buddy uid set (std::set, modelled as a duplicate-free list in insertion
order). A none from on_update_user_info is the asserting/undefined path of the
source and propagates: the run never returns a set. -/
def insertUserUid : Option (List Int) → JValue → Option (List Int)
  | none, _ => none
  | some s, v =>
    if !v.isObj then some s
    else
      match onUpdateUserInfo v with
      | none => none
      | some uid => if uid ≠ 0 then (if uid ∈ s then some s else some (s ++ [uid])) else some s

/-- on_update_user_infos of vk-buddy.cpp: walks the items and collects the active
buddy uid set; none when some item drives on_update_user_info into its undefined
read. -/
def onUpdateUserInfos (result : JValue) (friends_get : Bool) : Option (List Int) :=
  (userInfoItems result friends_get).foldl insertUserUid (some [])

/-! ## Specification-side definitions -/

/-- Photo URL selection as the specification words it, for the refinement claim: a
photo attachment lacking an access key renders the direct photo-page URL built from
owner_id and id; one with an access key renders the largest available resolution,
checking photo_2560, then photo_1280, then photo_807 in descending order and falling
back to the photo_604 thumbnail when none is present. -/
def specPhotoUrl (fields : JValue) : String :=
  if fieldIsStr fields "access_key" then
    if fieldIsStr fields "photo_2560" then getStr fields "photo_2560"
    else if fieldIsStr fields "photo_1280" then getStr fields "photo_1280"
    else if fieldIsStr fields "photo_807" then getStr fields "photo_807"
    else getStr fields "photo_604"
  else
    "http://vk.com/photo" ++ toString (getNum fields "owner_id") ++ "_" ++
      toString (getNum fields "id")

/-- Replacement of the numeric value of every count field of an object by n, keeping
everything else: two pages related by this map differ only in the value of their
count field, which lets the count-insensitivity of pagination be stated. -/
def setCountVal (n : Int) : JValue → JValue
  | .jobj fields =>
    .jobj (fields.map (fun p => if p.1 = "count" && p.2.isNum then ("count", .jnum n) else p))
  | v => v

/-! ## Concrete inputs for the claims -/

/-- Well-formed messages.get item (all four required fields). -/
def wfItem : JValue :=
  .jobj [("user_id", .jnum 1), ("date", .jnum 5), ("body", .jstr "hey"), ("id", .jnum 2)]

/-- Page with a nonempty items array but no count field. -/
def pageNoCount : JValue := .jobj [("items", .jarr [wfItem])]

/-- Well-formed page with one item. -/
def pageOneItem : JValue := .jobj [("count", .jnum 50), ("items", .jarr [wfItem])]

/-- Photo attachment payload for the thumbnail claims. -/
def c3Fields : JValue :=
  .jobj [("id", .jnum 10), ("owner_id", .jnum 20), ("text", .jstr "pic"),
         ("photo_604", .jstr "http://t/604.jpg")]

/-- Photo attachment wrapper. -/
def c3Attachment : JValue := .jobj [("type", .jstr "photo"), ("photo", c3Fields)]

/-- Message item carrying one photo attachment. -/
def c3Item : JValue :=
  .jobj [("user_id", .jnum 1), ("date", .jnum 100), ("body", .jstr "hi"),
         ("id", .jnum 7), ("attachments", .jarr [c3Attachment])]

/-- The received message built from c3Item. -/
def c3Msg : ReceivedMessage := (parseItem c3Item).getD default

/-- Owner and photo ids returned for one uploaded image in the order counterexample. -/
def c4Fun (i : Nat) : Int × Int := (((100 + i : Nat) : Int), ((200 + i : Nat) : Int))

/-- Upload outcome function used in the order counterexample. -/
def c4Save (i : Nat) : Option (Int × Int) := some (c4Fun i)

/-- CAPTCHA-required error response used in the send witness. -/
def c5Err : JValue :=
  .jobj [("error_code", .jnum 14), ("captcha_sid", .jstr "s1"),
         ("captcha_img", .jstr "http://c/img")]

/-- Send payload used in the send witness. -/
def c5Msg : SendMessage := { user_id := 7, chat_id := 0, text := "hello", attachments := "" }

/-- users.get item that passes every check (uid 5, can write, and a last_seen.time
number so the unguarded final read of the source is well defined). -/
def c6Good : JValue :=
  .jobj [("id", .jnum 5), ("first_name", .jstr "A"), ("last_name", .jstr "B"),
         ("can_write_private_message", .jnum 1),
         ("last_seen", .jobj [("time", .jnum 1000)])]

/-- users.get item for the same uid 5 that fails the can-write check. -/
def c6Bad : JValue :=
  .jobj [("id", .jnum 5), ("first_name", .jstr "A"), ("last_name", .jstr "B"),
         ("deactivated", .jstr "banned"), ("can_write_private_message", .jnum 0)]

/-- users.get response listing uid 5 twice with differing permissions. -/
def c6Result : JValue := .jarr [c6Good, c6Bad]

/-- users.get response holding only the failing item. -/
def c6Single : JValue := .jarr [c6Bad]

/-- Photo payload carrying an access key, for the URL witness. -/
def c7Fields : JValue :=
  .jobj [("id", .jnum 3), ("owner_id", .jnum 4), ("text", .jstr ""),
         ("photo_604", .jstr "http://t/604"), ("access_key", .jstr "ak"),
         ("photo_1280", .jstr "http://t/1280")]

/-- Message state before rendering the photo attachment in the URL witness. -/
def c7Msg : ReceivedMessage :=
  { uid := 1, mid := 2, text := "hello", timestamp := 3, thumbnail_urls := ["u0"] }

/-- Malformed messages.get item (date, body and id missing). -/
def c8Bad : JValue := .jobj [("user_id", .jnum 3)]

/-- Well-formed messages.get item following the malformed one. -/
def c8Good : JValue :=
  .jobj [("user_id", .jnum 4), ("date", .jnum 9), ("body", .jstr "ok"), ("id", .jnum 11)]

/-- Page whose items array holds a malformed item before a well-formed one. -/
def c8Page : JValue := .jobj [("count", .jnum 7), ("items", .jarr [c8Bad, c8Good])]

/-- Attachment of an unknown type whose payload object is present. -/
def c9Item : JValue := .jobj [("type", .jstr "sticker"), ("sticker", .jobj [])]

/-- Empty received message the unknown attachment is rendered into. -/
def c9Base : ReceivedMessage :=
  { uid := 0, mid := 0, text := "", timestamp := 0, thumbnail_urls := [] }

/-! ## Helper lemmas -/

/-- The push-back loop of process_result accumulates exactly the well-formed items. -/
theorem foldl_push_eq_filterMap (items : List JValue) :
    ∀ acc : List ReceivedMessage,
      items.foldl (fun acc v =>
        match parseItem v with
        | some m => acc ++ [m]
        | none => acc) acc = acc ++ items.filterMap parseItem := by
  induction items with
  | nil => intro acc; simp
  | cons v rest ih =>
    intro acc
    rw [List.foldl_cons, List.filterMap_cons]
    cases hv : parseItem v with
    | none => simp only [hv]; rw [ih]
    | some m => simp only [hv]; rw [ih, List.append_assoc]; rfl

/-- Failed thumbnail fetches never modify the message text, from any index. -/
theorem downloadThumbnailsFrom_all_none (outcomes : List (Option Int)) :
    ∀ (text : String) (i : Nat), (∀ o ∈ outcomes, o = none) →
      downloadThumbnailsFrom text i outcomes = text := by
  induction outcomes with
  | nil => intro text i _; rfl
  | cons o rest ih =>
    intro text i h
    have ho : o = none := h o (List.mem_cons_self o rest)
    subst ho
    rw [downloadThumbnailsFrom]
    exact ih text (i + 1) (fun x hx => h x (List.mem_cons_of_mem _ hx))

/-- Membership after one insertUserUid step comes from the accumulator or from the
item itself passing the checks with a nonzero uid. -/
theorem mem_insertUserUid {u : Int} {acc : Option (List Int)} {s : List Int}
    {v : JValue} (h : insertUserUid acc v = some s) (hu : u ∈ s) :
    (∃ s0, acc = some s0 ∧ u ∈ s0) ∨
      (v.isObj = true ∧ onUpdateUserInfo v = some u ∧ u ≠ 0) := by
  cases acc with
  | none =>
    have h2 : (none : Option (List Int)) = some s := h
    exact absurd h2 (by simp)
  | some s0 =>
    rw [insertUserUid] at h
    by_cases hobj : v.isObj = true
    · rw [if_neg (by simp [hobj])] at h
      cases honc : onUpdateUserInfo v with
      | none =>
        rw [honc] at h
        have h2 : (none : Option (List Int)) = some s := h
        exact absurd h2 (by simp)
      | some uid =>
        rw [honc] at h
        have h2 : (if uid ≠ 0 then (if uid ∈ s0 then some s0 else some (s0 ++ [uid]))
            else some s0) = some s := h
        by_cases hz : uid = 0
        · rw [if_neg (not_not_intro hz)] at h2
          have hs : s0 = s := Option.some.inj h2
          exact Or.inl ⟨s0, rfl, show u ∈ s0 by rw [hs]; exact hu⟩
        · rw [if_pos hz] at h2
          by_cases hm : uid ∈ s0
          · rw [if_pos hm] at h2
            have hs : s0 = s := Option.some.inj h2
            exact Or.inl ⟨s0, rfl, show u ∈ s0 by rw [hs]; exact hu⟩
          · rw [if_neg hm] at h2
            have hs : s0 ++ [uid] = s := Option.some.inj h2
            rcases List.mem_append.mp (show u ∈ s0 ++ [uid] by rw [hs]; exact hu)
              with hleft | hone
            · exact Or.inl ⟨s0, rfl, hleft⟩
            · have he : u = uid := List.mem_singleton.mp hone
              exact Or.inr ⟨hobj, show some uid = some u by rw [he],
                fun h0 => hz (he.symm.trans h0)⟩
    · have hfalse : v.isObj = false := by simpa using hobj
      rw [if_pos (by simp [hfalse])] at h
      have hs : s0 = s := Option.some.inj h
      exact Or.inl ⟨s0, rfl, show u ∈ s0 by rw [hs]; exact hu⟩

/-- Every uid in the folded active set comes from the accumulator or from some item
of the list passing the checks with a nonzero uid. -/
theorem mem_foldl_insertUserUid (items : List JValue) :
    ∀ (acc : Option (List Int)) (s : List Int) (u : Int),
      items.foldl insertUserUid acc = some s → u ∈ s →
      (∃ s0, acc = some s0 ∧ u ∈ s0) ∨
        ∃ w ∈ items, w.isObj = true ∧ onUpdateUserInfo w = some u ∧ u ≠ 0 := by
  induction items with
  | nil =>
    intro acc s u h hu
    exact Or.inl ⟨s, h, hu⟩
  | cons v rest ih =>
    intro acc s u h hu
    rcases ih (insertUserUid acc v) s u h hu with h1 | h2
    · obtain ⟨s0, hs0, hus0⟩ := h1
      rcases mem_insertUserUid hs0 hus0 with hs | hv
      · exact Or.inl hs
      · exact Or.inr ⟨v, List.mem_cons_self v rest, hv⟩
    · obtain ⟨w, hw, hrest⟩ := h2
      exact Or.inr ⟨w, List.mem_cons_of_mem _ hw, hrest⟩

/-- Unfolding of the field lookup on a cons cell. -/
theorem lookupField_cons (k : String) (v : JValue) (rest : List (String × JValue))
    (name : String) :
    JValue.lookupField ((k, v) :: rest) name
      = if k = name then some v else JValue.lookupField rest name := rfl

/-- Lookup of any field other than count is unchanged by setCountVal. -/
theorem lookupField_setCount_ne (n : Int) (fields : List (String × JValue))
    (name : String) (h : name ≠ "count") :
    JValue.lookupField
      (fields.map (fun p => if p.1 = "count" && p.2.isNum then ("count", .jnum n) else p)) name
      = JValue.lookupField fields name := by
  induction fields with
  | nil => rfl
  | cons p rest ih =>
    obtain ⟨k, v⟩ := p
    rw [List.map_cons]
    by_cases hc : (decide (k = "count") && v.isNum) = true
    · rw [if_pos hc]
      have hk : k = "count" := of_decide_eq_true ((Bool.and_eq_true _ _).mp hc).1
      simp only [lookupField_cons]
      rw [if_neg (fun he => h he.symm), if_neg (fun he => h (hk.symm.trans he).symm)]
      exact ih
    · rw [if_neg hc]
      simp only [lookupField_cons]
      by_cases hkn : k = name
      · rw [if_pos hkn, if_pos hkn]
      · rw [if_neg hkn, if_neg hkn]
        exact ih

/-- Whether the count field is present as a number is unchanged by setCountVal. -/
theorem lookupField_setCount_isNum (n : Int) (fields : List (String × JValue)) :
    ((JValue.lookupField
      (fields.map (fun p => if p.1 = "count" && p.2.isNum then ("count", .jnum n) else p))
      "count").getD .jnull).isNum
      = ((JValue.lookupField fields "count").getD .jnull).isNum := by
  induction fields with
  | nil => rfl
  | cons p rest ih =>
    obtain ⟨k, v⟩ := p
    rw [List.map_cons]
    by_cases hc : (decide (k = "count") && v.isNum) = true
    · rw [if_pos hc]
      have hk : k = "count" := of_decide_eq_true ((Bool.and_eq_true _ _).mp hc).1
      have hv : v.isNum = true := ((Bool.and_eq_true _ _).mp hc).2
      simp only [lookupField_cons]
      simp [hk, hv]
      rfl
    · rw [if_neg hc]
      simp only [lookupField_cons]
      by_cases hk : k = "count"
      · rw [if_pos hk, if_pos hk]
      · rw [if_neg hk, if_neg hk]
        exact ih

/-- process_result only reads the presence and type of the count field, never its
value: replacing the value changes nothing about the parsed page. -/
theorem processResult_setCountVal (n : Int) (r : JValue) :
    processResult (setCountVal n r) = processResult r := by
  cases r with
  | jobj fields =>
    unfold processResult
    have h1 : fieldIsNum (setCountVal n (.jobj fields)) "count"
        = fieldIsNum (.jobj fields) "count" := by
      simp only [setCountVal, fieldIsNum, JValue.get]
      exact lookupField_setCount_isNum n fields
    have h2 : (setCountVal n (.jobj fields)).get "items" = (JValue.jobj fields).get "items" := by
      simp only [setCountVal, JValue.get]
      rw [lookupField_setCount_ne n fields "items" (by decide)]
    have h3 : fieldIsArr (setCountVal n (.jobj fields)) "items"
        = fieldIsArr (.jobj fields) "items" := by
      simp only [fieldIsArr, h2]
    have h4 : getArr (setCountVal n (.jobj fields)) "items"
        = getArr (.jobj fields) "items" := by
      simp only [getArr, h2]
    rw [h1, h3, h4]
  | jnull => rfl
  | jbool b => rfl
  | jnum m => rfl
  | jstr s => rfl
  | jarr xs => rfl

/-- The impl recursion of upload_imgstore_images with an always-succeeding save
builds, starting at any offset, the comma-joined attachments of the remaining
reversed id list. -/
theorem uploadImgstoreImagesGo_total (f : Nat → Int × Int) (imgIds : List Nat) :
    ∀ (fuel offset : Nat) (atts : String), offset < imgIds.length →
      imgIds.length - offset ≤ fuel →
      uploadImgstoreImagesGo (fun i => some (f i)) imgIds fuel atts offset
        = some (((imgIds.reverse.map (fun i => photoAttachmentStr (f i).1 (f i).2)).drop
            offset).foldl (fun a x => (if a = "" then a else a ++ ",") ++ x) atts) := by
  intro fuel
  induction fuel with
  | zero =>
    intro offset atts h1 h2
    omega
  | succ fuel ih =>
    intro offset atts h1 h2
    have hidx : imgIds.length - offset - 1 < imgIds.length := by omega
    have hAlen : (imgIds.reverse.map (fun i => photoAttachmentStr (f i).1 (f i).2)).length
        = imgIds.length := by simp
    have hoffA : offset < (imgIds.reverse.map
        (fun i => photoAttachmentStr (f i).1 (f i).2)).length := by omega
    have hidx2 : imgIds.length - 1 - offset = imgIds.length - offset - 1 := by omega
    have hAelem : (imgIds.reverse.map (fun i => photoAttachmentStr (f i).1 (f i).2))[offset]
        = photoAttachmentStr (f (imgIds.getD (imgIds.length - offset - 1) 0)).1
            (f (imgIds.getD (imgIds.length - offset - 1) 0)).2 := by
      rw [List.getElem_map, List.getElem_reverse, List.getD_eq_getElem imgIds 0 hidx]
      simp only [hidx2]
    rw [uploadImgstoreImagesGo]
    simp only []
    rw [List.drop_eq_getElem_cons hoffA, List.foldl_cons, hAelem]
    by_cases hstop : offset = imgIds.length - 1
    · rw [if_pos hstop]
      have hdrop : (imgIds.reverse.map (fun i => photoAttachmentStr (f i).1 (f i).2)).drop
          (offset + 1) = [] := by
        apply List.drop_eq_nil_of_le
        omega
      rw [hdrop, List.foldl_nil]
    · rw [if_neg hstop]
      rw [ih (offset + 1) _ (by omega) (by omega)]

/-! ## Claim theorems -/

/-- C1: for every run of the message receiver, whatever order the API pages return
items in, the messages delivered to the host in finish are in ascending timestamp
order: any message delivered earlier has a timestamp at most that of any message
delivered later. -/
theorem delivered_messages_ascending (pages : List JValue) :
    List.Pairwise (fun a b => a.timestamp ≤ b.timestamp) (deliveredMessages pages) := by
  have htrans : ∀ a b c : ReceivedMessage,
      decide (a.timestamp ≤ b.timestamp) = true →
      decide (b.timestamp ≤ c.timestamp) = true →
      decide (a.timestamp ≤ c.timestamp) = true := by
    intro a b c hab hbc
    simp only [decide_eq_true_eq] at hab hbc ⊢
    omega
  have htotal : ∀ a b : ReceivedMessage,
      (decide (a.timestamp ≤ b.timestamp) || decide (b.timestamp ≤ a.timestamp)) = true := by
    intro a b
    simp only [Bool.or_eq_true, decide_eq_true_eq]
    omega
  have h := List.sorted_mergeSort htrans htotal (runUnreadAccum pages [])
  have h2 := List.Pairwise.imp
    (fun hab => by simpa using hab :
      ∀ {a b : ReceivedMessage}, decide (a.timestamp ≤ b.timestamp) = true →
        a.timestamp ≤ b.timestamp) h
  simpa [deliveredMessages, finish] using h2

/-- C2 counterexample: a page whose items array has one well-formed entry but whose
count field is missing makes process_result return 0, so pagination stops although
the items array is nonempty, contradicting the stops-exactly-on-empty claim. -/
theorem run_unread_stops_without_count :
    nextOffset pageNoCount 0 = none ∧ (getArr pageNoCount "items").length = 1 := by
  decide

/-- C2 amended: pagination stops exactly when the page response is malformed (count
not present as a number or items not present as an array) or the items array is
empty; on a well-formed page with items the next call uses offset increased by the
number of items in the page; and the numeric value of the count field never
influences the continuation decision. -/
theorem run_unread_pagination_rule (r : JValue) (offset : Nat) (n m : Int) :
    (nextOffset r offset = none ↔
      ((fieldIsNum r "count" && fieldIsArr r "items") = false ∨ getArr r "items" = [])) ∧
    ((fieldIsNum r "count" && fieldIsArr r "items") = true → getArr r "items" ≠ [] →
      nextOffset r offset = some (offset + (getArr r "items").length)) ∧
    nextOffset (setCountVal n r) offset = nextOffset (setCountVal m r) offset := by
  refine ⟨?_, ?_, ?_⟩
  · unfold nextOffset processResult
    by_cases hg : (fieldIsNum r "count" && fieldIsArr r "items") = true
    · simp [hg, List.length_eq_zero]
    · simp [hg]
  · intro hg hne
    unfold nextOffset processResult
    have hlen : (getArr r "items").length ≠ 0 := by
      simpa [List.length_eq_zero] using hne
    simp [hg, hlen]
  · unfold nextOffset
    rw [processResult_setCountVal, processResult_setCountVal]

/-- Witness for the amended C2 theorem at the concrete one-item page. -/
theorem run_unread_pagination_rule_witness :
    nextOffset pageOneItem 0 = some (0 + (getArr pageOneItem "items").length) :=
  (run_unread_pagination_rule pageOneItem 0 3 4).2.1 (by decide) (List.cons_ne_nil _ _)

/-- C4 counterexample: remove_img_tags lists the embedded image ids in order of
appearance, but the upload loop starts from the end, so two images appearing as ids
1 then 2 yield the attachment list of image 2 before image 1 - not the appearance
order the claim states. -/
theorem upload_attachment_order_not_preserved :
    (removeImgTags "a<img id=\"1\">b<img id=\"2\">c").2 = [1, 2] ∧
    uploadImgstoreImages c4Save [1, 2] = some "photo102_202,photo101_201" ∧
    uploadImgstoreImages c4Save [1, 2]
      ≠ some (joinComma [photoAttachmentStr 101 201, photoAttachmentStr 102 202]) := by
  decide

/-- C4 amended: the uploads are sequential (one recursive continuation at a time)
but start from the last embedded image: with every upload succeeding, the resulting
attachment list is the comma-joined attachments of the reversed appearance order. -/
theorem upload_attachments_in_reverse_order (f : Nat → Int × Int) (imgIds : List Nat)
    (h : imgIds ≠ []) :
    uploadImgstoreImages (fun i => some (f i)) imgIds
      = some (joinComma (imgIds.reverse.map (fun i => photoAttachmentStr (f i).1 (f i).2))) := by
  unfold uploadImgstoreImages joinComma
  rw [if_neg h]
  have hlen : 0 < imgIds.length := List.length_pos.mpr h
  rw [uploadImgstoreImagesGo_total f imgIds imgIds.length 0 "" hlen (by omega)]
  simp

/-- Witness for the amended C4 theorem at the concrete two-image list. -/
theorem upload_attachments_in_reverse_order_witness :
    uploadImgstoreImages (fun i => some (c4Fun i)) [1, 2]
      = some (joinComma ([1, 2].reverse.map (fun i => photoAttachmentStr (c4Fun i).1 (c4Fun i).2))) :=
  upload_attachments_in_reverse_order c4Fun [1, 2] (by decide)

/-- C3 counterexample: a message whose photo attachment queued one thumbnail keeps
the raw thumbnail-placeholder-0 token in its delivered text when the thumbnail
download fails, contradicting the claim that no raw placeholder token survives. -/
theorem thumbnail_failure_leaves_placeholder_token :
    c3Msg.thumbnail_urls.length = 1 ∧
    strContains (downloadThumbnails c3Msg.text [none]) (placeholderTag 0) = true := by
  decide

/-- C3 amended: a failed thumbnail download performs no substitution at all, so the
delivered text is the unchanged rendered text: the placeholder appended during
attachment processing is substituted only on success and remains verbatim (raw
token included) when every download of the message fails. -/
theorem thumbnail_failures_keep_text (text : String) (outcomes : List (Option Int))
    (h : ∀ o ∈ outcomes, o = none) :
    downloadThumbnails text outcomes = text :=
  downloadThumbnailsFrom_all_none outcomes text 0 h

/-- Witness for the amended C3 theorem at the concrete photo message. -/
theorem thumbnail_failures_keep_text_witness :
    downloadThumbnails c3Msg.text [none] = c3Msg.text :=
  thumbnail_failures_keep_text c3Msg.text [none] (by simp)

/-- C8 counterexample: in the older MessageReceiver::receive of vk-buddy.cpp a
malformed item aborts the whole page: the following well-formed item is dropped,
while process_result of vk-message-recv.cpp keeps it. -/
theorem old_receive_aborts_page_on_malformed_item :
    oldParseItem c8Good ≠ none ∧
    receiveItems [c8Bad, c8Good] [] = ([], true) ∧
    (processResult c8Page).1.length = 1 := by
  decide

/-- C8 amended: in MessageReceiver::process_result a malformed item is skipped and
the remaining well-formed items of the page are processed exactly as if the
malformed item were absent; the older receiver in vk-buddy.cpp instead aborts the
page at the malformed item (see the counterexample). -/
theorem process_result_skips_malformed_item (c : Int) (pre post : List JValue)
    (bad : JValue) (hbad : parseItem bad = none) :
    (processResult (.jobj [("count", .jnum c), ("items", .jarr (pre ++ bad :: post))])).1
      = (pre ++ post).filterMap parseItem ∧
    (processResult (.jobj [("count", .jnum c), ("items", .jarr (pre ++ bad :: post))])).1
      = (processResult (.jobj [("count", .jnum c), ("items", .jarr (pre ++ post))])).1 := by
  have hguard : ∀ its : List JValue,
      processResult (.jobj [("count", .jnum c), ("items", .jarr its)])
        = (its.filterMap parseItem, its.length) := by
    intro its
    have hred : processResult (.jobj [("count", .jnum c), ("items", .jarr its)]) =
        (its.foldl (fun acc v =>
          match parseItem v with
          | some m => acc ++ [m]
          | none => acc) [], its.length) := rfl
    rw [hred, foldl_push_eq_filterMap]
    simp
  rw [hguard, hguard]
  simp [List.filterMap_append, List.filterMap_cons, hbad]

/-- Witness for the amended C8 theorem at the concrete malformed-then-well-formed
page. -/
theorem process_result_skips_malformed_item_witness :
    (processResult (.jobj [("count", .jnum 7), ("items", .jarr ([] ++ c8Bad :: [c8Good]))])).1
      = ([] ++ [c8Good]).filterMap parseItem ∧
    (processResult (.jobj [("count", .jnum 7), ("items", .jarr ([] ++ c8Bad :: [c8Good]))])).1
      = (processResult (.jobj [("count", .jnum 7), ("items", .jarr ([] ++ [c8Good]))])).1 :=
  process_result_skips_malformed_item 7 [] [c8Good] c8Bad (by decide)

/-- C9 counterexample: the marker appended for an unknown attachment type is the
source literal with the misspelled word attachement (and a leading newline), not
the claimed literal Unknown attachment type. -/
theorem unknown_attachment_marker_literal_differs :
    strContains (processAttachments [c9Item] c9Base).text "Unknown attachment type" = false ∧
    (processAttachments [c9Item] c9Base).text = "\nUnknown attachement type sticker" := by
  decide

/-- C9 amended: for an attachment whose type field is present, is none of photo,
video, audio or doc, and whose type-named payload object is present (without it the
whole attachment loop returns early), processing continues with the remaining
attachments and the literal marker of the source - newline, Unknown attachement
type and a space - followed by the type name is appended. -/
theorem unknown_attachment_appends_marker_and_continues
    (m : ReceivedMessage) (v : JValue) (rest : List JValue) (t : String)
    (htype : v.get "type" = .jstr t)
    (hobj : fieldIsObj v t = true)
    (hnp : t ≠ "photo") (hnv : t ≠ "video") (hna : t ≠ "audio") (hnd : t ≠ "doc") :
    processAttachments (v :: rest) m =
      processAttachments rest
        { m with text := (if m.text = "" then m.text else m.text ++ "<br>") ++
            "\nUnknown attachement type " ++ t } := by
  rw [processAttachments]
  by_cases hm : m.text = "" <;>
    simp [fieldIsStr, getStr, htype, hobj, hnp, hnv, hna, hnd, JValue.isStr, hm]

/-- Witness for the amended C9 theorem at the concrete sticker attachment. -/
theorem unknown_attachment_appends_marker_and_continues_witness :
    processAttachments [c9Item] c9Base =
      processAttachments []
        { c9Base with text := (if c9Base.text = "" then c9Base.text else c9Base.text ++ "<br>") ++
            "\nUnknown attachement type " ++ "sticker" } :=
  unknown_attachment_appends_marker_and_continues c9Base c9Item [] "sticker"
    rfl rfl (by decide) (by decide) (by decide) (by decide)

/-- C5: an error response with error_code VK_CAPTCHA_NEEDED carrying captcha_sid
and captcha_img string fields triggers exactly one CAPTCHA challenge round-trip
(the single requestCaptcha action of process_im_error), and the one resubmission
issued through send_message_internal carries the identical payload - same user or
chat id, same text chunk, same attachments - plus the captcha_sid and the solved
captcha_key. -/
theorem captcha_retry_single_roundtrip_same_payload
    (m : SendMessage) (maxUrlencoded : String → Nat) (error : JValue)
    (sid img key : String)
    (hcode : error.get "error_code" = .jnum VK_CAPTCHA_NEEDED)
    (hsid : error.get "captcha_sid" = .jstr sid)
    (himg : error.get "captcha_img" = .jstr img)
    (hobj : error.isObj = true)
    (hsidne : sid ≠ "") (hkeyne : key ≠ "") :
    processImError error = .requestCaptcha sid img ∧
    buildSendParams maxUrlencoded m sid key =
      buildSendParams maxUrlencoded m "" "" ++
        [("captcha_sid", sid), ("captcha_key", key)] := by
  constructor
  · unfold processImError
    simp [fieldIsNum, fieldIsStr, getNum, getStr, hcode, hsid, himg, hobj,
          JValue.isNum, JValue.isStr]
  · unfold buildSendParams
    simp [hsidne, hkeyne]

/-- Witness for the C5 theorem at a concrete CAPTCHA error and payload. -/
theorem captcha_retry_single_roundtrip_same_payload_witness :
    processImError c5Err = .requestCaptcha "s1" "http://c/img" ∧
    buildSendParams String.length c5Msg "s1" "k1" =
      buildSendParams String.length c5Msg "" "" ++
        [("captcha_sid", "s1"), ("captcha_key", "k1")] :=
  captcha_retry_single_roundtrip_same_payload c5Msg String.length c5Err
    "s1" "http://c/img" "k1" rfl rfl rfl rfl (by decide) (by decide)

/-- C6 counterexample: a users.get response listing uid 5 twice - once writable
(with a well-formed last_seen.time, so every read of the source is defined), once
deactivated with can_write_private_message 0 - still ends with uid 5 in the active
uid set, although the second item satisfies the exclusion condition of the claim;
so that uid is not never-inserted. -/
theorem excluded_uid_inserted_via_duplicate_item :
    fieldIsStr c6Bad "deactivated" = true ∧
    getNum c6Bad "can_write_private_message" ≠ 1 ∧
    onUpdateUserInfo c6Bad = some 0 ∧
    getNum c6Bad "id" = 5 ∧
    userInfoItems c6Result false = [c6Good, c6Bad] ∧
    onUpdateUserInfos c6Result false = some [5] :=
  ⟨rfl, by decide, by decide, by decide, rfl, by decide⟩

/-- C6 amended: an item with a deactivated string field, or one whose numeric
can_write_private_message field is not 1, makes on_update_user_info return the
sentinel some 0 and contributes nothing to the active uid set; when the run
completes, a uid is in the returned set only because some item of the response
(possibly another item with the same uid) passes the checks with a nonzero uid. -/
theorem excluded_item_contributes_no_uid (result : JValue) (friends_get : Bool)
    (v : JValue) (u : Int) (s : List Int)
    (_hv : v ∈ userInfoItems result friends_get)
    (hfail : fieldIsStr v "deactivated" = true ∨
      (fieldIsNum v "can_write_private_message" = true ∧
        getNum v "can_write_private_message" ≠ 1)) :
    onUpdateUserInfo v = some 0 ∧
    (onUpdateUserInfos result friends_get = some s → u ∈ s →
      ∃ w ∈ userInfoItems result friends_get,
        w.isObj = true ∧ onUpdateUserInfo w = some u ∧ u ≠ 0) := by
  constructor
  · unfold onUpdateUserInfo
    by_cases h1 : (fieldIsNum v "id" && fieldIsStr v "first_name" &&
        fieldIsStr v "last_name") = true
    · rw [if_neg (by simp [h1])]
      rcases hfail with hdeact | ⟨hnum, hne⟩
      · rw [if_pos hdeact]
      · by_cases hdeact : fieldIsStr v "deactivated" = true
        · rw [if_pos hdeact]
        · rw [if_neg hdeact, if_neg (by simp [hnum]), if_pos hne]
    · rw [if_pos (by simp [h1])]
  · intro hs hu
    have hm := mem_foldl_insertUserUid (userInfoItems result friends_get)
      (some []) s u (by simpa [onUpdateUserInfos] using hs) hu
    rcases hm with ⟨s0, hs0, hus0⟩ | h2
    · have hnil : s0 = [] := by simpa using hs0
      exact absurd (hnil ▸ hus0) (List.not_mem_nil u)
    · exact h2

/-- Witness for the amended C6 theorem at the single-item deactivated response. -/
theorem excluded_item_contributes_no_uid_witness :
    onUpdateUserInfo c6Bad = some 0 ∧
    (onUpdateUserInfos c6Single false = some [] → (5 : Int) ∈ ([] : List Int) →
      ∃ w ∈ userInfoItems c6Single false,
        w.isObj = true ∧ onUpdateUserInfo w = some 5 ∧ (5 : Int) ≠ 0) :=
  excluded_item_contributes_no_uid c6Single false c6Bad 5 []
    (by simp [userInfoItems, c6Single, arrItems, JValue.isArr])
    (Or.inl (by decide))

/-- C7: the photo attachment rendering refines the specification: without an
access_key field the rendered link URL is the direct photo-page URL built from
owner_id and id, with an access_key field it is the largest available resolution
(photo_2560, then photo_1280, then photo_807, else the photo_604 thumbnail), as
captured by specPhotoUrl, and the rendered message embeds exactly that URL. -/
theorem photo_attachment_renders_spec_url (f : JValue) (m : ReceivedMessage)
    (hid : fieldIsNum f "id" = true) (hown : fieldIsNum f "owner_id" = true)
    (htext : fieldIsStr f "text" = true) (hthumb : fieldIsStr f "photo_604" = true) :
    photoUrl f = specPhotoUrl f ∧
    processAttachments [.jobj [("type", .jstr "photo"), ("photo", f)]] m =
      { m with
        text := (if m.text = "" then m.text else m.text ++ "<br>") ++
          (if getStr f "text" = "" then
            "<a href=\x27" ++ specPhotoUrl f ++ "\x27>" ++ specPhotoUrl f ++ "</a>"
          else
            "<a href=\x27" ++ specPhotoUrl f ++ "\x27>" ++ getStr f "text" ++ "</a>") ++
          "<br>" ++ placeholderTag m.thumbnail_urls.length,
        thumbnail_urls := m.thumbnail_urls ++ [getStr f "photo_604"] } := by
  refine ⟨rfl, ?_⟩
  have hobjf : f.isObj = true := by
    cases f with
    | jobj fs => rfl
    | jnull => simp [fieldIsNum, JValue.get, JValue.isNum] at hid
    | jbool b => simp [fieldIsNum, JValue.get, JValue.isNum] at hid
    | jnum n => simp [fieldIsNum, JValue.get, JValue.isNum] at hid
    | jstr s => simp [fieldIsNum, JValue.get, JValue.isNum] at hid
    | jarr xs => simp [fieldIsNum, JValue.get, JValue.isNum] at hid
  have h1 : fieldIsStr (JValue.jobj [("type", .jstr "photo"), ("photo", f)]) "type" = true := rfl
  have h2 : getStr (JValue.jobj [("type", .jstr "photo"), ("photo", f)]) "type" = "photo" := rfl
  have h3 : (JValue.jobj [("type", .jstr "photo"), ("photo", f)]).get "photo" = f := rfl
  have h4 : fieldIsObj (JValue.jobj [("type", .jstr "photo"), ("photo", f)]) "photo"
      = f.isObj := rfl
  have hurl : photoUrl f = specPhotoUrl f := rfl
  rw [processAttachments]
  by_cases hm : m.text = "" <;> by_cases ht : getStr f "text" = "" <;>
    simp [h1, h2, h3, h4, hobjf, hid, hown, htext, hthumb, hm, ht, hurl, processAttachments]

/-- Witness for the C7 theorem at a concrete access-keyed photo with photo_1280 as
the largest delivered size. -/
theorem photo_attachment_renders_spec_url_witness :
    photoUrl c7Fields = specPhotoUrl c7Fields ∧
    processAttachments [.jobj [("type", .jstr "photo"), ("photo", c7Fields)]] c7Msg =
      { c7Msg with
        text := (if c7Msg.text = "" then c7Msg.text else c7Msg.text ++ "<br>") ++
          (if getStr c7Fields "text" = "" then
            "<a href=\x27" ++ specPhotoUrl c7Fields ++ "\x27>" ++ specPhotoUrl c7Fields ++ "</a>"
          else
            "<a href=\x27" ++ specPhotoUrl c7Fields ++ "\x27>" ++ getStr c7Fields "text" ++ "</a>") ++
          "<br>" ++ placeholderTag c7Msg.thumbnail_urls.length,
        thumbnail_urls := c7Msg.thumbnail_urls ++ [getStr c7Fields "photo_604"] } :=
  photo_attachment_renders_spec_url c7Fields c7Msg rfl rfl rfl rfl

/-- C10: mark_message_as_read issues no messages.markAsRead call for an empty id
list, and the mark-read call at the end of a receive run is issued exactly when at
least one message was delivered. -/
theorem mark_read_call_requires_messages (msgs : List ReceivedMessage) :
    markMessageAsRead [] = none ∧ (finishMarkCall msgs = none ↔ msgs = []) := by
  constructor
  · rfl
  · have h1 : ∀ l : List Int, markMessageAsRead l = none ↔ l = [] := by
      intro l
      unfold markMessageAsRead
      by_cases h : l = [] <;> simp [h]
    rw [finishMarkCall, h1, List.map_eq_nil_iff]
    unfold finish
    constructor
    · intro h
      have hl : msgs.length = 0 := by
        have hc := congrArg List.length h
        simpa [List.length_mergeSort] using hc
      exact List.length_eq_zero.mp hl
    · intro h
      subst h
      simp [List.mergeSort_nil]

end VkPlugin
